import Mathlib

/-!
Verification development for the my-spectrum repository.

The repository contains two variants of the application:
* a proof-of-concept variant (0-10 score scale; `lib/recommendations.ts`
  returns plain strategy strings), and
* a production variant (0-5 score scale; `src/lib/metrics.ts`,
  `src/lib/sharing.ts`, `src/components/ShareModal.tsx`, `src/App.tsx`,
  `src/types/index.ts`).

Scores are JavaScript numbers; everywhere a claim is concerned they are
integers, so they are embedded as `Int`.  Query strings are embedded at
the key-value-pair level (`Params`): the browser's `URLSearchParams`
serialisation is an external API that round-trips pairs losslessly, so
its percent-encoding layer is modelled as the identity on pairs.
-/

namespace MySpectrum

/-- `SupportLevel` from `types/index.ts` (identical in both variants):
the three difficulty levels for support strategies. -/
inductive SupportLevel where
  | highNeed
  | moderate
  | independent
  deriving DecidableEq

namespace Metrics

/-- `getSupportLevel` from `src/lib/metrics.ts` (0-5 scale):
score ≤ 1 is highNeed, score ≤ 3 is moderate, otherwise independent. -/
def getSupportLevel (score : Int) : SupportLevel :=
  if score ≤ 1 then .highNeed
  else if score ≤ 3 then .moderate
  else .independent

/-- `getIntensityLabel` from `src/lib/metrics.ts` (0-5 scale):
score ≤ 1 is "Low", score ≤ 3 is "Medium", otherwise "High". -/
def getIntensityLabel (score : Int) : String :=
  if score ≤ 1 then "Low"
  else if score ≤ 3 then "Medium"
  else "High"

/-- `isValidMetricScore` from `src/lib/metrics.ts`:
`Number.isInteger(value) && value >= 0 && value <= 5`.  The argument is
embedded as `Int`, so `Number.isInteger` holds by construction; every
caller in the claims feeds it the result of `parseInt`, which is either
an integer (embedded as `some n`) or `NaN` (embedded as `none` and
rejected before this check is reached). -/
def isValidMetricScore (value : Int) : Bool :=
  0 ≤ value && value ≤ 5

end Metrics

namespace Rec

/-- `getScoreLevel` from `lib/recommendations.ts` (the variant shipped in
the repository, documented there as the 0-10 scale): score ≤ 2 is
highNeed, score ≤ 6 is moderate, otherwise independent. -/
def getScoreLevel (score : Int) : SupportLevel :=
  if score ≤ 2 then .highNeed
  else if score ≤ 6 then .moderate
  else .independent

/-- One audience's strategies in the `StrategyMap` of
`lib/recommendations.ts`: a list of strategy strings per support level. -/
structure AudienceStrategies where
  highNeed : List String
  moderate : List String
  independent : List String
  deriving DecidableEq

/-- One metric's entry in the `StrategyMap`: parent and teacher buckets. -/
structure MetricStrategies where
  parent : AudienceStrategies
  teacher : AudienceStrategies
  deriving DecidableEq

/-- Indexing one audience bucket at a support level
(`metricStrategies.parent[level]` in `lib/recommendations.ts`; `level` is
always one of the three keys, so the lookup is total). -/
def levelStrategies (a : AudienceStrategies) : SupportLevel → List String
  | .highNeed => a.highNeed
  | .moderate => a.moderate
  | .independent => a.independent

/-- The `supportStrategies` table of `lib/recommendations.ts`, keyed by
metric name string (`supportStrategies[metricName]`); an unknown key
yields `undefined`, embedded as `none`. -/
def strategyLookup (name : String) : Option MetricStrategies :=
  if name = "Focus" then some {
    parent := {
      highNeed := [
        "Create a quiet, distraction-free workspace with minimal visual stimuli",
        "Use timers and break down tasks into smaller, manageable chunks (Pomodoro technique)",
        "Implement a consistent daily routine to reduce decision fatigue"],
      moderate := [
        "Offer structured activity times with breaks between focused work",
        "Use visual schedules and checklists to help with task organization",
        "Celebrate small wins to maintain motivation"],
      independent := [
        "Continue supporting focus with occasional check-ins",
        "Encourage self-directed projects that match their interests",
        "Model good focus habits and work alongside them sometimes"] },
    teacher := {
      highNeed := [
        "Seat student near the front, away from distractions; use preferential seating",
        "Provide written instructions in addition to verbal; use visual supports",
        "Allow use of fidget tools, headphones, or movement breaks as needed"],
      moderate := [
        "Break complex assignments into smaller parts with check-ins",
        "Offer flexible seating and allow movement between tasks",
        "Use multimodal instruction (visual, auditory, kinesthetic)"],
      independent := [
        "Provide choice in how to demonstrate learning",
        "Encourage peer collaboration and group projects",
        "Offer challenge activities to maintain engagement"] } }
  else if name = "Social Interaction" then some {
    parent := {
      highNeed := [
        "Model social scripts and practice interactions through role-play at home",
        "Create structured social opportunities (clubs, small groups) rather than free-for-all events",
        "Use visual supports (social stories, emotion charts) to teach social cues"],
      moderate := [
        "Support developing 1-2 close friendships over large social circles",
        "Teach self-advocacy and how to ask for help or space",
        "Validate social anxiety and celebrate small social efforts"],
      independent := [
        "Encourage participation in interest-based groups or communities",
        "Support developing their own social strategies and preferences",
        "Respect their natural social style; not everyone needs a large friend group"] },
    teacher := {
      highNeed := [
        "Assign a peer buddy or mentor; use structured partner work",
        "Teach explicit social rules and expected behaviors; use visual supports",
        "Allow breaks from social situations when overwhelmed; provide a safe space"],
      moderate := [
        "Facilitate small-group projects with clear roles and responsibilities",
        "Teach and reinforce social skills during teachable moments",
        "Provide choice in group composition when possible"],
      independent := [
        "Include student voice in classroom discussions and community building",
        "Support leadership or mentoring roles if interested",
        "Create inclusive classroom where diverse social styles are valued"] } }
  else if name = "Sensory Sensitivity" then some {
    parent := {
      highNeed := [
        "Identify specific triggers (sounds, textures, lights) and create predictable sensory environment",
        "Offer calming tools: weighted blankets, noise-canceling headphones, fidget items",
        "Allow withdrawal/quiet time when overwhelmed; don\x27t force sensory experiences"],
      moderate := [
        "Provide advance warning of sensory changes (loud events, crowded spaces)",
        "Teach sensory self-regulation: deep breathing, counting, movement breaks",
        "Respect sensory preferences in clothing, food, and activities"],
      independent := [
        "Support self-advocacy about sensory needs to peers and others",
        "Encourage awareness of their own sensory patterns",
        "Celebrate their sensory awareness as a strength"] },
    teacher := {
      highNeed := [
        "Reduce sensory triggers: dim lights, minimize clutter, control noise levels",
        "Provide access to quiet space or sensory corner when needed",
        "Give advance notice of assemblies, fire drills, or unusual auditory/visual events"],
      moderate := [
        "Offer headphones during noisy activities; allow movement breaks",
        "Respect seating preferences and classroom positioning needs",
        "Use calming sensory tools (stress balls, fidgets) during instruction"],
      independent := [
        "Allow student input on classroom sensory environment",
        "Support self-regulation strategies during unstructured times",
        "Model sensory awareness and accommodations as normal and positive"] } }
  else if name = "Motor Skills" then some {
    parent := {
      highNeed := [
        "Practice fine motor skills through play: play dough, threading, puzzles, drawing",
        "Use adapted utensils, pencil grips, or pencil grips to support writing",
        "Be patient with self-care tasks (dressing, eating); offer support without shame"],
      moderate := [
        "Encourage activities that build strength and coordination: swimming, sports, climbing",
        "Practice handwriting with multi-sensory approaches (sandpaper letters, sky-writing)",
        "Celebrate effort and progress, not perfection in physical tasks"],
      independent := [
        "Support development of interests in physical activities or sports",
        "Encourage self-chosen movement and exercise",
        "Allow natural development of motor skills at their own pace"] },
    teacher := {
      highNeed := [
        "Provide extra time and modified expectations for handwriting; allow typed work",
        "Use adapted grip aids, sloped desks, or alternative writing tools",
        "Break physical tasks into smaller steps with demonstration"],
      moderate := [
        "Offer movement breaks throughout the day",
        "Accept alternative ways to show learning (verbal responses, typing, drawing)",
        "Provide encouragement and model persistence with physical tasks"],
      independent := [
        "Include student in selection of physical activities and PE modifications",
        "Support participation in sports, arts, or movement-based clubs",
        "Celebrate diverse ways of being physical"] } }
  else if name = "Routine Preference" then some {
    parent := {
      highNeed := [
        "Establish consistent daily routines and stick to them; use visual schedules",
        "Prepare child in advance for any changes; give multiple warnings before transitions",
        "Create rituals around transitions (10-min warning, countdown timer)"],
      moderate := [
        "Maintain consistent meal times, bedtimes, and key routines",
        "Prepare for changes with pictures or discussions ahead of time",
        "Use visual schedules to show daily flow and upcoming changes"],
      independent := [
        "Support their preference for structure while allowing some flexibility",
        "Help them develop their own routines and organizational systems",
        "Celebrate their ability to organize and plan"] },
    teacher := {
      highNeed := [
        "Maintain consistent classroom schedule and provide advance notice of changes",
        "Use visual daily schedule visible to all students",
        "Create transition rituals; warn before changes (5-min, 2-min, then transition)"],
      moderate := [
        "Keep consistent routines for major activities (start of day, lunch, transitions)",
        "Show upcoming schedule and why changes are happening",
        "Allow processing time for changes and unexpected situations"],
      independent := [
        "Share schedule changes in advance when possible",
        "Support student leadership in organizing classroom routines",
        "Respect their preference for structure as a strength"] } }
  else if name = "Emotional Regulation" then some {
    parent := {
      highNeed := [
        "Teach emotion recognition: name feelings, use emotion charts or color codes",
        "Build calm-down toolkit together: breathing techniques, music, movement, sensory items",
        "Stay calm during meltdowns; prioritize safety, comfort, and reconnection"],
      moderate := [
        "Validate emotions without trying to \x27fix\x27 them immediately",
        "Teach coping strategies: deep breathing, self-talk, physical activity",
        "Create a feelings journal or art project to express emotions"],
      independent := [
        "Support development of their own emotion regulation strategies",
        "Respect their emotional style and processing time",
        "Celebrate emotional awareness and self-understanding"] },
    teacher := {
      highNeed := [
        "Teach explicit emotion regulation: breathing, movement, sensory breaks",
        "Provide a safe space (cool-down area) for when emotions are big",
        "Use visual supports: emotion thermometers, zones of regulation, feeling cards"],
      moderate := [
        "Check in regularly about feelings; validate emotions",
        "Teach self-regulation strategies during calm times for use during stress",
        "Offer choices to promote autonomy and reduce frustration"],
      independent := [
        "Create a supportive classroom where feelings are discussed openly",
        "Support peer support and empathy building",
        "Model emotional regulation for all students"] } }
  else none

/-- A JavaScript `Set<string>` with insertion order, as used for the
parent/teacher accumulators: `add` is a no-op on an element already
present, otherwise appends. -/
def setAdd (s : List String) (x : String) : List String :=
  if x ∈ s then s else s ++ [x]

/-- `xs.forEach((strat) => set.add(strat))`. -/
def setAddAll (s : List String) (xs : List String) : List String :=
  xs.foldl setAdd s

/-- Insertion step of a stable ascending sort on `(metricName, score)`
pairs: an element is placed before the first strictly e-or-greater
element, after all earlier elements of equal score. -/
def insertAsc (p : String × Int) : List (String × Int) → List (String × Int)
  | [] => [p]
  | q :: qs => if p.2 ≤ q.2 then p :: q :: qs else q :: insertAsc p qs

/-- `Object.entries(metrics).sort(([, a], [, b]) => a - b)`:
JavaScript `Array.prototype.sort` with this comparator is a stable
ascending sort by score; embedded as stable insertion sort. -/
def sortMetrics (l : List (String × Int)) : List (String × Int) :=
  l.foldr insertAsc []

/-- `.slice(0, 3)`: the three lowest-scoring metrics of
`generateRecommendations` (fewer if the profile has fewer entries). -/
def selectedMetrics (metrics : List (String × Int)) : List (String × Int) :=
  (sortMetrics metrics).take 3

/-- `Recommendations` of the proof-of-concept variant: plain strategy
strings per audience. -/
structure Recommendations where
  parent : List String
  teacher : List String
  deriving DecidableEq

/-- Body of the per-metric loop of `generateRecommendations`: look the
metric up in the table (skipping unknown names, per the
`if (metricStrategies)` guard), then add the first two strategies of the
parent and teacher buckets at the metric's score level. -/
def recStep (acc : List String × List String) (pr : String × Int) :
    List String × List String :=
  let level := getScoreLevel pr.2
  match strategyLookup pr.1 with
  | some ms =>
      (setAddAll acc.1 ((levelStrategies ms.parent level).take 2),
       setAddAll acc.2 ((levelStrategies ms.teacher level).take 2))
  | none => acc

/-- `generateRecommendations` from `lib/recommendations.ts`.  The
metrics object is embedded as its `Object.entries` list in key-insertion
order. -/
def generateRecommendations (metrics : List (String × Int)) : Recommendations :=
  if metrics.isEmpty then ⟨[], []⟩
  else
    let acc := (selectedMetrics metrics).foldl recStep ([], [])
    ⟨acc.1, acc.2⟩

/-- Loop body of `generateRecommendationsExc`: identical to `recStep`,
in the `Except` monad. -/
def recStepExc (acc : List String × List String) (pr : String × Int) :
    Except String (List String × List String) :=
  let level := getScoreLevel pr.2
  match strategyLookup pr.1 with
  | some ms =>
      pure (setAddAll acc.1 ((levelStrategies ms.parent level).take 2),
            setAddAll acc.2 ((levelStrategies ms.teacher level).take 2))
  | none => pure acc

/-- `generateRecommendations` with the one potential JavaScript throw
site made explicit: dereferencing `metricStrategies.parent` would throw
if the table lookup were `undefined`, but the source guards the lookup
(`if (metricStrategies)`), so no error branch remains reachable. -/
def generateRecommendationsExc (metrics : List (String × Int)) :
    Except String Recommendations :=
  if metrics.isEmpty then .ok ⟨[], []⟩
  else do
    let acc ← (selectedMetrics metrics).foldlM recStepExc ([], [])
    pure ⟨acc.1, acc.2⟩

end Rec

/-- A query string at the key-value-pair level: the logical content of a
`URLSearchParams` object, in order. -/
abbrev Params := List (String × String)

/-- `URLSearchParams.get(k)`: the value of the first pair with key `k`,
or `null` (`none`). -/
def paramsGet (ps : Params) (k : String) : Option String :=
  match ps.find? (fun p => p.1 == k) with
  | some p => some p.2
  | none => none

/-- Helper for `paramsSet`: remove every pair with key `k`. -/
def paramsRemove (ps : Params) (k : String) : Params :=
  ps.filter (fun p => p.1 != k)

/-- `URLSearchParams.set(k, v)`: replace the first pair with key `k` in
place and delete the others, or append a new pair. -/
def paramsSet : Params → String → String → Params
  | [], k, v => [(k, v)]
  | p :: ps, k, v =>
      if p.1 == k then (k, v) :: paramsRemove ps k
      else p :: paramsSet ps k v

/-- JavaScript `String.prototype.trim()`: remove leading and trailing
whitespace, embedded over the character list (`Char.isWhitespace`
approximates the JavaScript whitespace set; they agree on ASCII). -/
def jsTrim (s : String) : String :=
  ⟨(((s.data.dropWhile Char.isWhitespace).reverse).dropWhile
      Char.isWhitespace).reverse⟩

/-- JavaScript `parseInt(s, 10)`: skip leading whitespace, read an
optional sign, then the longest prefix of decimal digits; `NaN` (no
digit found) is embedded as `none`. -/
def jsParseInt (s : String) : Option Int :=
  let cs := s.data.dropWhile (fun c => c.isWhitespace)
  let signed : Int × List Char :=
    match cs with
    | '-' :: rest => (-1, rest)
    | '+' :: rest => (1, rest)
    | _ => (1, cs)
  let digits := signed.2.takeWhile (fun c => c.isDigit)
  if digits.isEmpty then none
  else some (signed.1 *
    (digits.foldl (fun acc c => acc * 10 + (c.toNat - '0'.toNat)) (0 : Nat) : Nat))

namespace ShareModal

/-- `METRIC_KEY_MAP` of `components/ShareModal.tsx`: metric name to URL
short key (an unknown name yields `undefined`, embedded as `none`). -/
def metricKey (name : String) : Option String :=
  if name = "Focus" then some "f"
  else if name = "Social Interaction" then some "si"
  else if name = "Sensory Sensitivity" then some "ss"
  else if name = "Motor Skills" then some "ms"
  else if name = "Routine Preference" then some "rp"
  else if name = "Emotional Regulation" then some "er"
  else none

/-- `generateShareUrl` from `components/ShareModal.tsx`, as the query
pairs it appends to `origin + pathname + "?"`: the trimmed name first
when non-blank (`if (name?.trim())`), then each metric of
`Object.entries(metrics)` under its short key (skipped if the name has
no short key, per the `if (key)` guard). -/
def generateShareUrl (metrics : List (String × Int)) (name : Option String) :
    Params :=
  let ps : Params := []
  let ps := match name with
    | some n => if jsTrim n ≠ "" then paramsSet ps "name" (jsTrim n) else ps
    | none => ps
  metrics.foldl (fun ps m =>
    match metricKey m.1 with
    | some k => paramsSet ps k (toString m.2)
    | none => ps) ps

end ShareModal

namespace Sharing

/-- `getSupportLevel` from `src/lib/sharing.ts` (label-valued, 0-5
scale). -/
def getSupportLevel (score : Int) : String :=
  if score ≤ 1 then "High Support"
  else if score ≤ 3 then "Moderate"
  else "Independent"

/-- `escapeCSV` from `src/lib/sharing.ts`:
`str.replace(/"/g, chr(34) + chr(34))`, doubling every double quote. -/
def escapeCSV (s : String) : String :=
  s.data.foldl (fun acc c => if c = '"' then acc ++ "\"\"" else acc.push c) ""

/-- The `Partial<MetricsObject>` built by `parseUrlMetrics`: one
optional score per metric. -/
structure DecodedMetrics where
  focus : Option Int := none
  socialInteraction : Option Int := none
  sensorySensitivity : Option Int := none
  motorSkills : Option Int := none
  routinePreference : Option Int := none
  emotionalRegulation : Option Int := none
  deriving DecidableEq

/-- The non-null result of `parseUrlMetrics`. -/
structure ParseResult where
  metrics : DecodedMetrics
  name : Option String
  deriving DecidableEq

/-- The per-key body of the `parseUrlMetrics` loop in
`src/lib/sharing.ts`: if the key is present, `parseInt` its value and
accept it only when `score >= 0 && score <= 5` (a `NaN` comparison is
false, embedded as the `none` branch). -/
def parseMetricParam (ps : Params) (k : String) : Option Int :=
  match paramsGet ps k with
  | none => none
  | some v =>
      match jsParseInt v with
      | none => none
      | some n => if 0 ≤ n ∧ n ≤ 5 then some n else none

/-- `parseUrlMetrics` from `src/lib/sharing.ts`: iterate the six
`KEY_METRIC_MAP` entries in declaration order, accept each valid value,
read the optional `name`, and return `null` (`none`) when no metric key
was accepted. -/
def parseUrlMetrics (ps : Params) : Option ParseResult :=
  let m : DecodedMetrics := {
    focus := parseMetricParam ps "f"
    socialInteraction := parseMetricParam ps "si"
    sensorySensitivity := parseMetricParam ps "ss"
    motorSkills := parseMetricParam ps "ms"
    routinePreference := parseMetricParam ps "rp"
    emotionalRegulation := parseMetricParam ps "er" }
  let hasMetrics := m.focus.isSome || m.socialInteraction.isSome ||
    m.sensorySensitivity.isSome || m.motorSkills.isSome ||
    m.routinePreference.isSome || m.emotionalRegulation.isSome
  let name := paramsGet ps "name"
  if hasMetrics then some ⟨m, name⟩ else none

end Sharing

namespace App

/-- The per-key acceptance of the `parseUrlMetrics` variant in
`src/App.tsx`, which checks `isValidMetricScore(parseInt(value, 10))`
instead of the inline range test. -/
def parseMetricParam (ps : Params) (k : String) : Option Int :=
  match paramsGet ps k with
  | none => none
  | some v =>
      match jsParseInt v with
      | none => none
      | some n => if Metrics.isValidMetricScore n then some n else none

/-- `parseUrlMetrics` from `src/App.tsx` (same `KEY_METRIC_MAP`
iteration order, imported from `ShareModal`). -/
def parseUrlMetrics (ps : Params) : Option Sharing.ParseResult :=
  let m : Sharing.DecodedMetrics := {
    focus := parseMetricParam ps "f"
    socialInteraction := parseMetricParam ps "si"
    sensorySensitivity := parseMetricParam ps "ss"
    motorSkills := parseMetricParam ps "ms"
    routinePreference := parseMetricParam ps "rp"
    emotionalRegulation := parseMetricParam ps "er" }
  let hasMetrics := m.focus.isSome || m.socialInteraction.isSome ||
    m.sensorySensitivity.isSome || m.motorSkills.isSome ||
    m.routinePreference.isSome || m.emotionalRegulation.isSome
  let name := paramsGet ps "name"
  if hasMetrics then some ⟨m, name⟩ else none

/-- A complete profile as its `Object.entries` list, in the key
insertion order of `getInitialMetrics` (`METRIC_NAMES` order). -/
def profileEntries (f si ss ms rp er : Int) : List (String × Int) :=
  [("Focus", f), ("Social Interaction", si), ("Sensory Sensitivity", ss),
   ("Motor Skills", ms), ("Routine Preference", rp),
   ("Emotional Regulation", er)]

end App

namespace Types

/-- `StrategySource` from `src/types/index.ts`: the fixed enumeration of
attribution tags. -/
inductive StrategySource where
  | chadd
  | understood
  | asan
  deriving DecidableEq

/-- `Strategy` from `src/types/index.ts`: a support strategy with source
attribution. -/
structure Strategy where
  text : String
  source : StrategySource
  deriving DecidableEq

/-- `Recommendations` from `src/types/index.ts`: source-attributed
strategies per audience. -/
structure Recommendations where
  parent : List Strategy
  teacher : List Strategy
  deriving DecidableEq

end Types

namespace Sharing

/-- `MetricLevelData` of `src/lib/sharing.ts`: a per-score description
entry of the settings table. -/
structure MetricLevelData where
  score : Int
  description : String
  deriving DecidableEq

/-- `Resource` of `src/lib/sharing.ts`. -/
structure Resource where
  title : String
  url : String
  description : String
  deriving DecidableEq

/-- The `filter` over `[...recommendations.parent, ...recommendations.teacher]`
in `generateCSVContent`, with its `seenTexts` set: keep a strategy only
when its text was not seen before. -/
def dedupGo (seen : List String) : List Types.Strategy → List Types.Strategy
  | [] => []
  | s :: rest =>
      if seen.contains s.text then dedupGo seen rest
      else s :: dedupGo (s.text :: seen) rest

/-- The deduplicated `allStrategies` list of `generateCSVContent`. -/
def dedupStrategies (l : List Types.Strategy) : List Types.Strategy :=
  dedupGo [] l

/-- The rows pushed for the SUPPORT STRATEGIES section of
`generateCSVContent` (not counting the section marker): the
deduplicated strategies of `parent ++ teacher`, each numbered from 1 in
order (`idx + 1` in the `forEach`). -/
def csvStrategyRows (recommendations : Option Types.Recommendations) :
    List String :=
  match recommendations with
  | some recs =>
      (dedupStrategies (recs.parent ++ recs.teacher)).enum.map
        (fun p => toString (p.1 + 1) ++ ",\"" ++ escapeCSV p.2.text ++ "\"")
  | none => []

/-- JavaScript array index `metricData?.[score]` on the settings table:
defined only for an in-bounds non-negative integer index. -/
def levelAt (data : List MetricLevelData) (score : Int) :
    Option MetricLevelData :=
  if h : 0 ≤ score ∧ score.toNat < data.length then
    some (data.get ⟨score.toNat, h.2⟩)
  else none

/-- `generateCSVContent` from `src/lib/sharing.ts`, as the `rows` list
it joins with newlines.  The impure `new Date().toLocaleDateString()` is
passed in as `currentDate`; the settings table is a string-keyed record
embedded as an `Option`-valued function. -/
def generateCSVContent (metrics : List (String × Int))
    (settingsData : String → Option (List MetricLevelData))
    (recommendations : Option Types.Recommendations)
    (parentResources teacherResources : List Resource)
    (currentDate : String) : List String :=
  ["My Spectrum Report", "Generated: " ++ currentDate, ""]
  ++ ["=== METRICS ===", "Metric,Score,Level,Description"]
  ++ metrics.map (fun m =>
      let description :=
        (((settingsData m.1).bind (fun d => levelAt d m.2)).map
          MetricLevelData.description).getD ""
      "\"" ++ m.1 ++ "\"," ++ toString m.2 ++ ",\"" ++ getSupportLevel m.2
        ++ "\",\"" ++ escapeCSV description ++ "\"")
  ++ [""]
  ++ ["=== SUPPORT STRATEGIES ==="] ++ csvStrategyRows recommendations
  ++ [""]
  ++ ["=== RESOURCES FOR PARENTS & CAREGIVERS ===", "Resource,URL,Description"]
  ++ parentResources.map (fun r =>
      "\"" ++ escapeCSV r.title ++ "\",\"" ++ r.url ++ "\",\""
        ++ escapeCSV r.description ++ "\"")
  ++ [""]
  ++ ["=== RESOURCES FOR EDUCATORS ===", "Resource,URL,Description"]
  ++ teacherResources.map (fun r =>
      "\"" ++ escapeCSV r.title ++ "\",\"" ++ r.url ++ "\",\""
        ++ escapeCSV r.description ++ "\"")

end Sharing

namespace ProdRec

/-- The `s(text, source)` helper of the production
`lib/recommendations.ts` (second embedded document of
`src/src/lib/db.ts`): build a strategy with source attribution. -/
def s (text : String) (source : Types.StrategySource) : Types.Strategy :=
  ⟨text, source⟩

/-- One audience's strategies in the production `StrategyMap`: a list of
source-attributed strategies per support level. -/
structure AudienceStrategies where
  highNeed : List Types.Strategy
  moderate : List Types.Strategy
  independent : List Types.Strategy
  deriving DecidableEq

/-- One metric's entry in the production `StrategyMap`: parent and
teacher buckets. -/
structure MetricStrategies where
  parent : AudienceStrategies
  teacher : AudienceStrategies
  deriving DecidableEq

/-- Indexing one audience bucket at a support level
(`metricStrategies.parent[level]`; `level` is always one of the three
keys, so the lookup is total). -/
def levelStrategies (a : AudienceStrategies) : SupportLevel → List Types.Strategy
  | .highNeed => a.highNeed
  | .moderate => a.moderate
  | .independent => a.independent

/-- The `supportStrategies` table of the production
`lib/recommendations.ts`, keyed by metric name string
(`supportStrategies[metricName]`); an unknown key yields `undefined`,
embedded as `none`. -/
def strategyLookup (name : String) : Option MetricStrategies :=
  if name = "Focus" then some {
    parent := {
      highNeed := [
        s "Create a quiet, distraction-free workspace with minimal visual stimuli" .chadd,
        s "Use timers and break down tasks into smaller, manageable chunks (Pomodoro technique)" .understood,
        s "Implement a consistent daily routine to reduce decision fatigue" .chadd],
      moderate := [
        s "Offer structured activity times with breaks between focused work" .chadd,
        s "Use visual schedules and checklists to help with task organization" .understood,
        s "Celebrate small wins to maintain motivation" .understood],
      independent := [
        s "Continue supporting focus with occasional check-ins" .understood,
        s "Encourage self-directed projects that match their interests" .asan,
        s "Model good focus habits and work alongside them sometimes" .understood] },
    teacher := {
      highNeed := [
        s "Seat student near the front, away from distractions; use preferential seating" .chadd,
        s "Provide written instructions in addition to verbal; use visual supports" .understood,
        s "Allow use of fidget tools, headphones, or movement breaks as needed" .chadd],
      moderate := [
        s "Break complex assignments into smaller parts with check-ins" .chadd,
        s "Offer flexible seating and allow movement between tasks" .understood,
        s "Use multimodal instruction (visual, auditory, kinesthetic)" .understood],
      independent := [
        s "Provide choice in how to demonstrate learning" .understood,
        s "Encourage peer collaboration and group projects" .understood,
        s "Offer challenge activities to maintain engagement" .chadd] } }
  else if name = "Social Interaction" then some {
    parent := {
      highNeed := [
        s "Model social scripts and practice interactions through role-play at home" .understood,
        s "Create structured social opportunities (clubs, small groups) rather than free-for-all events" .asan,
        s "Use visual supports (social stories, emotion charts) to teach social cues" .understood],
      moderate := [
        s "Support developing 1-2 close friendships over large social circles" .asan,
        s "Teach self-advocacy and how to ask for help or space" .asan,
        s "Validate social anxiety and celebrate small social efforts" .understood],
      independent := [
        s "Encourage participation in interest-based groups or communities" .asan,
        s "Support developing their own social strategies and preferences" .asan,
        s "Respect their natural social style; not everyone needs a large friend group" .asan] },
    teacher := {
      highNeed := [
        s "Assign a peer buddy or mentor; use structured partner work" .understood,
        s "Teach explicit social rules and expected behaviors; use visual supports" .understood,
        s "Allow breaks from social situations when overwhelmed; provide a safe space" .asan],
      moderate := [
        s "Facilitate small-group projects with clear roles and responsibilities" .understood,
        s "Teach and reinforce social skills during teachable moments" .understood,
        s "Provide choice in group composition when possible" .asan],
      independent := [
        s "Include student voice in classroom discussions and community building" .asan,
        s "Support leadership or mentoring roles if interested" .understood,
        s "Create inclusive classroom where diverse social styles are valued" .asan] } }
  else if name = "Sensory Sensitivity" then some {
    parent := {
      highNeed := [
        s "Identify specific triggers (sounds, textures, lights) and create predictable sensory environment" .asan,
        s "Offer calming tools: weighted blankets, noise-canceling headphones, fidget items" .understood,
        s "Allow withdrawal/quiet time when overwhelmed; don\x27t force sensory experiences" .asan],
      moderate := [
        s "Provide advance warning of sensory changes (loud events, crowded spaces)" .asan,
        s "Teach sensory self-regulation: deep breathing, counting, movement breaks" .understood,
        s "Respect sensory preferences in clothing, food, and activities" .asan],
      independent := [
        s "Support self-advocacy about sensory needs to peers and others" .asan,
        s "Encourage awareness of their own sensory patterns" .asan,
        s "Celebrate their sensory awareness as a strength" .asan] },
    teacher := {
      highNeed := [
        s "Reduce sensory triggers: dim lights, minimize clutter, control noise levels" .asan,
        s "Provide access to quiet space or sensory corner when needed" .understood,
        s "Give advance notice of assemblies, fire drills, or unusual auditory/visual events" .asan],
      moderate := [
        s "Offer headphones during noisy activities; allow movement breaks" .chadd,
        s "Respect seating preferences and classroom positioning needs" .asan,
        s "Use calming sensory tools (stress balls, fidgets) during instruction" .understood],
      independent := [
        s "Allow student input on classroom sensory environment" .asan,
        s "Support self-regulation strategies during unstructured times" .understood,
        s "Model sensory awareness and accommodations as normal and positive" .asan] } }
  else if name = "Motor Skills" then some {
    parent := {
      highNeed := [
        s "Practice fine motor skills through play: play dough, threading, puzzles, drawing" .understood,
        s "Use adapted utensils, pencil grips, or pencil grips to support writing" .understood,
        s "Be patient with self-care tasks (dressing, eating); offer support without shame" .asan],
      moderate := [
        s "Encourage activities that build strength and coordination: swimming, sports, climbing" .understood,
        s "Practice handwriting with multi-sensory approaches (sandpaper letters, sky-writing)" .understood,
        s "Celebrate effort and progress, not perfection in physical tasks" .asan],
      independent := [
        s "Support development of interests in physical activities or sports" .understood,
        s "Encourage self-chosen movement and exercise" .asan,
        s "Allow natural development of motor skills at their own pace" .asan] },
    teacher := {
      highNeed := [
        s "Provide extra time and modified expectations for handwriting; allow typed work" .understood,
        s "Use adapted grip aids, sloped desks, or alternative writing tools" .understood,
        s "Break physical tasks into smaller steps with demonstration" .understood],
      moderate := [
        s "Offer movement breaks throughout the day" .chadd,
        s "Accept alternative ways to show learning (verbal responses, typing, drawing)" .understood,
        s "Provide encouragement and model persistence with physical tasks" .understood],
      independent := [
        s "Include student in selection of physical activities and PE modifications" .asan,
        s "Support participation in sports, arts, or movement-based clubs" .understood,
        s "Celebrate diverse ways of being physical" .asan] } }
  else if name = "Routine Preference" then some {
    parent := {
      highNeed := [
        s "Establish consistent daily routines and stick to them; use visual schedules" .understood,
        s "Prepare child in advance for any changes; give multiple warnings before transitions" .asan,
        s "Create rituals around transitions (10-min warning, countdown timer)" .chadd],
      moderate := [
        s "Maintain consistent meal times, bedtimes, and key routines" .understood,
        s "Prepare for changes with pictures or discussions ahead of time" .understood,
        s "Use visual schedules to show daily flow and upcoming changes" .chadd],
      independent := [
        s "Support their preference for structure while allowing some flexibility" .asan,
        s "Help them develop their own routines and organizational systems" .understood,
        s "Celebrate their ability to organize and plan" .asan] },
    teacher := {
      highNeed := [
        s "Maintain consistent classroom schedule and provide advance notice of changes" .chadd,
        s "Use visual daily schedule visible to all students" .understood,
        s "Create transition rituals; warn before changes (5-min, 2-min, then transition)" .chadd],
      moderate := [
        s "Keep consistent routines for major activities (start of day, lunch, transitions)" .chadd,
        s "Show upcoming schedule and why changes are happening" .understood,
        s "Allow processing time for changes and unexpected situations" .asan],
      independent := [
        s "Share schedule changes in advance when possible" .understood,
        s "Support student leadership in organizing classroom routines" .asan,
        s "Respect their preference for structure as a strength" .asan] } }
  else if name = "Emotional Regulation" then some {
    parent := {
      highNeed := [
        s "Teach emotion recognition: name feelings, use emotion charts or color codes" .understood,
        s "Build calm-down toolkit together: breathing techniques, music, movement, sensory items" .chadd,
        s "Stay calm during meltdowns; prioritize safety, comfort, and reconnection" .asan],
      moderate := [
        s "Validate emotions without trying to \x27fix\x27 them immediately" .asan,
        s "Teach coping strategies: deep breathing, self-talk, physical activity" .chadd,
        s "Create a feelings journal or art project to express emotions" .understood],
      independent := [
        s "Support development of their own emotion regulation strategies" .asan,
        s "Respect their emotional style and processing time" .asan,
        s "Celebrate emotional awareness and self-understanding" .asan] },
    teacher := {
      highNeed := [
        s "Teach explicit emotion regulation: breathing, movement, sensory breaks" .chadd,
        s "Provide a safe space (cool-down area) for when emotions are big" .understood,
        s "Use visual supports: emotion thermometers, zones of regulation, feeling cards" .understood],
      moderate := [
        s "Check in regularly about feelings; validate emotions" .asan,
        s "Teach self-regulation strategies during calm times for use during stress" .chadd,
        s "Offer choices to promote autonomy and reduce frustration" .asan],
      independent := [
        s "Create a supportive classroom where feelings are discussed openly" .asan,
        s "Support peer support and empathy building" .understood,
        s "Model emotional regulation for all students" .chadd] } }
  else none

/-- `getScoreLevel` of the production `lib/recommendations.ts` (0-5
scale): score ≤ 1 is highNeed, score ≤ 3 is moderate, otherwise
independent. -/
def getScoreLevel (score : Int) : SupportLevel :=
  if score ≤ 1 then .highNeed
  else if score ≤ 3 then .moderate
  else .independent

/-- A JavaScript `Map<string, Strategy>` keyed by strategy text, with
insertion order, as used for the two accumulators:
`if (!map.has(strat.text)) map.set(strat.text, strat)` keeps the first
strategy per text, and `Array.from(map.values())` returns the kept
strategies in insertion order. -/
def mapInsert (acc : List Types.Strategy) (strat : Types.Strategy) :
    List Types.Strategy :=
  if acc.any (fun t => t.text == strat.text) then acc else acc ++ [strat]

/-- `xs.forEach((strat) => if (!map.has(strat.text)) map.set(...))`. -/
def mapInsertAll (acc : List Types.Strategy) (xs : List Types.Strategy) :
    List Types.Strategy :=
  xs.foldl mapInsert acc

/-- Body of the per-metric loop of the production
`generateRecommendations`: look the metric up in the table (skipping
unknown names, per the `if (metricStrategies)` guard), then insert the
first two strategies of the parent and teacher buckets at the metric's
score level into the text-keyed maps. -/
def recStep (acc : List Types.Strategy × List Types.Strategy)
    (pr : String × Int) : List Types.Strategy × List Types.Strategy :=
  let level := getScoreLevel pr.2
  match strategyLookup pr.1 with
  | some ms =>
      (mapInsertAll acc.1 ((levelStrategies ms.parent level).take 2),
       mapInsertAll acc.2 ((levelStrategies ms.teacher level).take 2))
  | none => acc

/-- `generateRecommendations` of the production `lib/recommendations.ts`
(second embedded document of `src/src/lib/db.ts`): empty profile yields
two empty lists; otherwise sort the entries ascending by score, keep the
first three, and accumulate each selected metric's first two bucket
strategies per audience into a text-keyed first-wins map.  The sort and
slice are the same code as the proof-of-concept variant, so
`Rec.sortMetrics`/`Rec.selectedMetrics` are reused. -/
def generateRecommendations (metrics : List (String × Int)) :
    Types.Recommendations :=
  if metrics.isEmpty then ⟨[], []⟩
  else
    let acc := (Rec.selectedMetrics metrics).foldl recStep ([], [])
    ⟨acc.1, acc.2⟩

/-- Statement-side helper: the discovery-ordered stream of candidate
strategies for one audience — for each selected metric in turn, the
first two strategies of its bucket at the metric's score level.  The
engine's accumulators process exactly this stream. -/
def audienceStream (pick : MetricStrategies → AudienceStrategies)
    (metrics : List (String × Int)) : List Types.Strategy :=
  (Rec.selectedMetrics metrics).flatMap (fun pr =>
    match strategyLookup pr.1 with
    | some ms => (levelStrategies (pick ms) (getScoreLevel pr.2)).take 2
    | none => [])

end ProdRec

namespace Sharing

/-- Statement-side accessor: the field of the decoded partial profile
that corresponds to a URL short key. -/
def fieldForKey (m : DecodedMetrics) (k : String) : Option Int :=
  if k = "f" then m.focus
  else if k = "si" then m.socialInteraction
  else if k = "ss" then m.sensorySensitivity
  else if k = "ms" then m.motorSkills
  else if k = "rp" then m.routinePreference
  else if k = "er" then m.emotionalRegulation
  else none

end Sharing

/-! ## Claim C1 -/

/-- C1, counterexample: the claim states that for every score in the
deployed range [0, 5] the level `generateRecommendations` uses,
`getScoreLevel`, equals the Metric Model's `getSupportLevel`
(moderate for 2-3).  At score 2 the two functions disagree:
`getScoreLevel 2 = highNeed` while `getSupportLevel 2 = moderate`. -/
theorem getScoreLevel_ne_getSupportLevel_at_two :
    Rec.getScoreLevel 2 = SupportLevel.highNeed ∧
    Metrics.getSupportLevel 2 = SupportLevel.moderate ∧
    ¬ Rec.getScoreLevel 2 = Metrics.getSupportLevel 2 := by
  decide

/-- C1, amended: over the deployed range [0, 5], `getScoreLevel`
(which follows the 0-10 variant's thresholds: highNeed for 0-2,
moderate for 3-6) agrees with the Metric Model's `getSupportLevel`
exactly at the scores 0, 1 and 3; it classifies s ≤ 2 as highNeed and
2 < s ≤ 5 as moderate. -/
theorem getScoreLevel_vs_getSupportLevel (s : Int) (h0 : 0 ≤ s) (h5 : s ≤ 5) :
    (Rec.getScoreLevel s = Metrics.getSupportLevel s ↔ s = 0 ∨ s = 1 ∨ s = 3) ∧
    (s ≤ 2 → Rec.getScoreLevel s = SupportLevel.highNeed) ∧
    (2 < s → Rec.getScoreLevel s = SupportLevel.moderate) := by
  interval_cases s <;> exact ⟨by decide, by decide, by decide⟩

/-- Witness for C1's amended theorem at score 4. -/
theorem getScoreLevel_vs_getSupportLevel_witness :
    (0 ≤ (4 : Int)) ∧ ((4 : Int) ≤ 5) ∧
    ((Rec.getScoreLevel 4 = Metrics.getSupportLevel 4 ↔
        (4 : Int) = 0 ∨ (4 : Int) = 1 ∨ (4 : Int) = 3) ∧
     ((4 : Int) ≤ 2 → Rec.getScoreLevel 4 = SupportLevel.highNeed) ∧
     ((2 : Int) < 4 → Rec.getScoreLevel 4 = SupportLevel.moderate)) :=
  ⟨by decide, by decide, getScoreLevel_vs_getSupportLevel 4 (by decide) (by decide)⟩

/-! ## Claim C6 -/

/-- C6: for every integer score in [0, 5], `getSupportLevel` and
`getIntensityLabel` partition the range into the same three bands:
highNeed exactly at "Low", moderate exactly at "Medium", independent
exactly at "High". -/
theorem supportLevel_intensityLabel_bands (s : Int) (h0 : 0 ≤ s) (h5 : s ≤ 5) :
    (Metrics.getSupportLevel s = SupportLevel.highNeed ↔
      Metrics.getIntensityLabel s = "Low") ∧
    (Metrics.getSupportLevel s = SupportLevel.moderate ↔
      Metrics.getIntensityLabel s = "Medium") ∧
    (Metrics.getSupportLevel s = SupportLevel.independent ↔
      Metrics.getIntensityLabel s = "High") := by
  interval_cases s <;> exact ⟨by decide, by decide, by decide⟩

/-- Witness for C6 at score 2. -/
theorem supportLevel_intensityLabel_bands_witness :
    (0 ≤ (2 : Int)) ∧ ((2 : Int) ≤ 5) ∧
    ((Metrics.getSupportLevel 2 = SupportLevel.highNeed ↔
        Metrics.getIntensityLabel 2 = "Low") ∧
     (Metrics.getSupportLevel 2 = SupportLevel.moderate ↔
        Metrics.getIntensityLabel 2 = "Medium") ∧
     (Metrics.getSupportLevel 2 = SupportLevel.independent ↔
        Metrics.getIntensityLabel 2 = "High")) :=
  ⟨by decide, by decide, supportLevel_intensityLabel_bands 2 (by decide) (by decide)⟩

/-! ## Claim C4 -/

/-- C4, counterexample: the claim states that a metric key whose string
value is not an integer numeral (such as "2.9" or "3abc") is silently
dropped.  Both decode variants accept such values, truncated by
`parseInt` to their leading integer prefix. -/
theorem parseUrlMetrics_accepts_noninteger_numerals :
    Sharing.parseUrlMetrics [("f", "2.9")] =
      some ⟨⟨some 2, none, none, none, none, none⟩, none⟩ ∧
    Sharing.parseUrlMetrics [("f", "3abc")] =
      some ⟨⟨some 3, none, none, none, none, none⟩, none⟩ ∧
    App.parseUrlMetrics [("f", "2.9")] =
      some ⟨⟨some 2, none, none, none, none, none⟩, none⟩ := by
  decide

/-- C4, amended: `parseUrlMetrics` accepts a metric key's value into the
output profile exactly when `parseInt(value, 10)` yields an integer in
[0, 5]; a value whose leading integer prefix is in range (such as "2.9"
or "3abc") is accepted as that truncated prefix, and a key is dropped
only when `parseInt` yields NaN (no leading integer) or an out-of-range
integer. -/
theorem parseUrlMetrics_accepts_iff_parseInt_valid (ps : Params) (k : String)
    (hk : k ∈ ["f", "si", "ss", "ms", "rp", "er"])
    (r : Sharing.ParseResult) (hr : Sharing.parseUrlMetrics ps = some r) :
    Sharing.fieldForKey r.metrics k =
      match paramsGet ps k with
      | none => none
      | some v =>
          match jsParseInt v with
          | none => none
          | some n => if 0 ≤ n ∧ n ≤ 5 then some n else none := by
  simp only [Sharing.parseUrlMetrics] at hr
  split at hr
  · cases hr
    fin_cases hk <;> rfl
  · cases hr

/-- Witness for C4's amended theorem at the query `f=2.9`. -/
theorem parseUrlMetrics_accepts_iff_parseInt_valid_witness :
    ("f" ∈ ["f", "si", "ss", "ms", "rp", "er"]) ∧
    Sharing.parseUrlMetrics [("f", "2.9")] =
      some ⟨⟨some 2, none, none, none, none, none⟩, none⟩ ∧
    Sharing.fieldForKey
        (⟨some 2, none, none, none, none, none⟩ : Sharing.DecodedMetrics) "f" =
      (match paramsGet [("f", "2.9")] "f" with
       | none => none
       | some v =>
           match jsParseInt v with
           | none => none
           | some n => if 0 ≤ n ∧ n ≤ 5 then some n else none) :=
  ⟨by decide, by decide,
    parseUrlMetrics_accepts_iff_parseInt_valid [("f", "2.9")] "f" (by decide)
      ⟨⟨some 2, none, none, none, none, none⟩, none⟩ (by decide)⟩

/-! ## Claim C5 -/

/-- C5: decoding treats the six metric keys independently — a returned
result carries, for each key, exactly the key's own valid value (an
invalid key is omitted without affecting the others), the result is
`none` exactly when no metric key carries a valid value, and at the
claim's example shapes: an out-of-range `f=6` next to a valid `si=3`
omits exactly `f`, and a query with zero valid metric keys decodes to
`none`. -/
theorem parseUrlMetrics_independent_keys :
    (∀ ps : Params, Sharing.parseUrlMetrics ps = none ↔
      Sharing.parseMetricParam ps "f" = none ∧
      Sharing.parseMetricParam ps "si" = none ∧
      Sharing.parseMetricParam ps "ss" = none ∧
      Sharing.parseMetricParam ps "ms" = none ∧
      Sharing.parseMetricParam ps "rp" = none ∧
      Sharing.parseMetricParam ps "er" = none) ∧
    (∀ ps r, Sharing.parseUrlMetrics ps = some r →
      r.metrics.focus = Sharing.parseMetricParam ps "f" ∧
      r.metrics.socialInteraction = Sharing.parseMetricParam ps "si" ∧
      r.metrics.sensorySensitivity = Sharing.parseMetricParam ps "ss" ∧
      r.metrics.motorSkills = Sharing.parseMetricParam ps "ms" ∧
      r.metrics.routinePreference = Sharing.parseMetricParam ps "rp" ∧
      r.metrics.emotionalRegulation = Sharing.parseMetricParam ps "er" ∧
      r.name = paramsGet ps "name") ∧
    Sharing.parseUrlMetrics [("f", "6"), ("si", "3")] =
      some ⟨⟨none, some 3, none, none, none, none⟩, none⟩ ∧
    Sharing.parseUrlMetrics [("f", "6"), ("name", "x")] = none := by
  refine ⟨fun ps => ?_, fun ps r hr => ?_, by decide, by decide⟩
  · simp only [Sharing.parseUrlMetrics]
    split
    · rename_i h
      simp only [Bool.or_eq_true, Option.isSome_iff_ne_none] at h
      constructor
      · intro hcon
        exact absurd hcon (by simp)
      · intro hall
        rcases h with ((((h | h) | h) | h) | h) | h <;>
          [exact absurd hall.1 h; exact absurd hall.2.1 h;
           exact absurd hall.2.2.1 h; exact absurd hall.2.2.2.1 h;
           exact absurd hall.2.2.2.2.1 h; exact absurd hall.2.2.2.2.2 h]
    · rename_i h
      simp only [Bool.or_eq_true, Option.isSome_iff_ne_none, not_or] at h
      push_neg at h
      obtain ⟨⟨⟨⟨⟨h1, h2⟩, h3⟩, h4⟩, h5⟩, h6⟩ := h
      simp only [true_iff]
      exact ⟨h1, h2, h3, h4, h5, h6⟩
  · simp only [Sharing.parseUrlMetrics] at hr
    split at hr
    · cases hr
      exact ⟨rfl, rfl, rfl, rfl, rfl, rfl, rfl⟩
    · cases hr

/-- Witness for C5 at the query `f=6&si=3` (out-of-range `f` next to a
valid `si`). -/
theorem parseUrlMetrics_independent_keys_witness :
    Sharing.parseUrlMetrics [("f", "6"), ("si", "3")] =
      some ⟨⟨none, some 3, none, none, none, none⟩, none⟩ ∧
    ((⟨⟨none, some 3, none, none, none, none⟩, none⟩ :
        Sharing.ParseResult).metrics.focus =
      Sharing.parseMetricParam [("f", "6"), ("si", "3")] "f" ∧
    (⟨⟨none, some 3, none, none, none, none⟩, none⟩ :
        Sharing.ParseResult).metrics.socialInteraction =
      Sharing.parseMetricParam [("f", "6"), ("si", "3")] "si" ∧
    (⟨⟨none, some 3, none, none, none, none⟩, none⟩ :
        Sharing.ParseResult).metrics.sensorySensitivity =
      Sharing.parseMetricParam [("f", "6"), ("si", "3")] "ss" ∧
    (⟨⟨none, some 3, none, none, none, none⟩, none⟩ :
        Sharing.ParseResult).metrics.motorSkills =
      Sharing.parseMetricParam [("f", "6"), ("si", "3")] "ms" ∧
    (⟨⟨none, some 3, none, none, none, none⟩, none⟩ :
        Sharing.ParseResult).metrics.routinePreference =
      Sharing.parseMetricParam [("f", "6"), ("si", "3")] "rp" ∧
    (⟨⟨none, some 3, none, none, none, none⟩, none⟩ :
        Sharing.ParseResult).metrics.emotionalRegulation =
      Sharing.parseMetricParam [("f", "6"), ("si", "3")] "er" ∧
    (⟨⟨none, some 3, none, none, none, none⟩, none⟩ :
        Sharing.ParseResult).name = paramsGet [("f", "6"), ("si", "3")] "name") :=
  ⟨by decide,
    parseUrlMetrics_independent_keys.2.1 [("f", "6"), ("si", "3")]
      ⟨⟨none, some 3, none, none, none, none⟩, none⟩ (by decide)⟩

/-! ## Claim C3 -/

/-- On the deployed range, `parseInt` inverts `String(score)`. -/
theorem jsParseInt_toString_of_range (s : Int) (h0 : 0 ≤ s) (h5 : s ≤ 5) :
    jsParseInt (toString s) = some s := by
  interval_cases s <;> decide

/-- The pairs produced by `generateShareUrl` on a complete profile with
a non-blank name: the trimmed name first, then the six metrics in
`METRIC_NAMES` order under their short keys. -/
theorem generateShareUrl_entries (f si ss ms rp er : Int) (name : String)
    (h : jsTrim name ≠ "") :
    ShareModal.generateShareUrl (App.profileEntries f si ss ms rp er)
        (some name) =
      [("name", jsTrim name), ("f", toString f), ("si", toString si),
       ("ss", toString ss), ("ms", toString ms), ("rp", toString rp),
       ("er", toString er)] := by
  simp [ShareModal.generateShareUrl, App.profileEntries, ShareModal.metricKey,
    paramsSet, h]

/-- The pairs produced by `generateShareUrl` with a blank name: the six
metrics only. -/
theorem generateShareUrl_entries_blank (f si ss ms rp er : Int) (name : String)
    (h : jsTrim name = "") :
    ShareModal.generateShareUrl (App.profileEntries f si ss ms rp er)
        (some name) =
      [("f", toString f), ("si", toString si), ("ss", toString ss),
       ("ms", toString ms), ("rp", toString rp), ("er", toString er)] := by
  simp [ShareModal.generateShareUrl, App.profileEntries, ShareModal.metricKey,
    paramsSet, h]

/-- C3, counterexample: the claim states that decode reproduces the
supplied name whenever it is non-blank after trimming.  For the
supplied name " Alex" (non-blank after trimming), encode stores the
trimmed form, and decode returns "Alex", not " Alex". -/
theorem roundtrip_not_verbatim_for_untrimmed_name :
    (Sharing.parseUrlMetrics (ShareModal.generateShareUrl
        (App.profileEntries 1 4 0 5 3 2) (some " Alex"))).map
        Sharing.ParseResult.name = some (some "Alex") ∧
    jsTrim " Alex" ≠ "" ∧
    ¬ (Sharing.parseUrlMetrics (ShareModal.generateShareUrl
        (App.profileEntries 1 4 0 5 3 2) (some " Alex"))).map
        Sharing.ParseResult.name = some (some " Alex") := by
  decide

/-- C3, amended: for every complete profile with scores in [0, 5] and
every name string, decoding the query produced by encode reproduces all
six scores exactly, and reproduces the trimmed name whenever the
supplied name is non-blank after trimming (so the name itself is
reproduced exactly when it carries no surrounding whitespace). -/
theorem encode_decode_roundtrip (f si ss ms rp er : Int) (name : String)
    (hf : 0 ≤ f ∧ f ≤ 5) (hsi : 0 ≤ si ∧ si ≤ 5) (hss : 0 ≤ ss ∧ ss ≤ 5)
    (hms : 0 ≤ ms ∧ ms ≤ 5) (hrp : 0 ≤ rp ∧ rp ≤ 5) (her : 0 ≤ er ∧ er ≤ 5) :
    ∃ r, Sharing.parseUrlMetrics (ShareModal.generateShareUrl
        (App.profileEntries f si ss ms rp er) (some name)) = some r ∧
      r.metrics = ⟨some f, some si, some ss, some ms, some rp, some er⟩ ∧
      (jsTrim name ≠ "" → r.name = some (jsTrim name)) := by
  by_cases hn : jsTrim name = ""
  · rw [generateShareUrl_entries_blank f si ss ms rp er name hn]
    refine ⟨⟨⟨some f, some si, some ss, some ms, some rp, some er⟩, none⟩,
      ?_, rfl, fun hc => absurd hn hc⟩
    simp [Sharing.parseUrlMetrics, Sharing.parseMetricParam, paramsGet,
      jsParseInt_toString_of_range f hf.1 hf.2,
      jsParseInt_toString_of_range si hsi.1 hsi.2,
      jsParseInt_toString_of_range ss hss.1 hss.2,
      jsParseInt_toString_of_range ms hms.1 hms.2,
      jsParseInt_toString_of_range rp hrp.1 hrp.2,
      jsParseInt_toString_of_range er her.1 her.2,
      hf.1, hf.2, hsi.1, hsi.2, hss.1, hss.2, hms.1, hms.2, hrp.1, hrp.2,
      her.1, her.2]
  · rw [generateShareUrl_entries f si ss ms rp er name hn]
    refine ⟨⟨⟨some f, some si, some ss, some ms, some rp, some er⟩,
      some (jsTrim name)⟩, ?_, rfl, fun _ => rfl⟩
    simp [Sharing.parseUrlMetrics, Sharing.parseMetricParam, paramsGet,
      jsParseInt_toString_of_range f hf.1 hf.2,
      jsParseInt_toString_of_range si hsi.1 hsi.2,
      jsParseInt_toString_of_range ss hss.1 hss.2,
      jsParseInt_toString_of_range ms hms.1 hms.2,
      jsParseInt_toString_of_range rp hrp.1 hrp.2,
      jsParseInt_toString_of_range er her.1 her.2,
      hf.1, hf.2, hsi.1, hsi.2, hss.1, hss.2, hms.1, hms.2, hrp.1, hrp.2,
      her.1, her.2]

/-- Witness for C3's amended theorem at the spec's example profile
(Focus 1, Social 4, Sensory 0, Motor 5, Routine 3, Emotional 2) with
name "Alex". -/
theorem encode_decode_roundtrip_witness :
    ((0 : Int) ≤ 1 ∧ (1 : Int) ≤ 5) ∧ ((0 : Int) ≤ 4 ∧ (4 : Int) ≤ 5) ∧
    ((0 : Int) ≤ 0 ∧ (0 : Int) ≤ 5) ∧ ((0 : Int) ≤ 5 ∧ (5 : Int) ≤ 5) ∧
    ((0 : Int) ≤ 3 ∧ (3 : Int) ≤ 5) ∧ ((0 : Int) ≤ 2 ∧ (2 : Int) ≤ 5) ∧
    (∃ r, Sharing.parseUrlMetrics (ShareModal.generateShareUrl
        (App.profileEntries 1 4 0 5 3 2) (some "Alex")) = some r ∧
      r.metrics = ⟨some 1, some 4, some 0, some 5, some 3, some 2⟩ ∧
      (jsTrim "Alex" ≠ "" → r.name = some (jsTrim "Alex"))) :=
  ⟨by decide, by decide, by decide, by decide, by decide, by decide,
    encode_decode_roundtrip 1 4 0 5 3 2 "Alex" (by decide) (by decide)
      (by decide) (by decide) (by decide) (by decide)⟩

/-! ## Sorting and accumulator lemmas for the recommendation engine -/

/-- Inserting into a sorted-by-score list permutes consing. -/
theorem insertAsc_perm (p : String × Int) (l : List (String × Int)) :
    List.Perm (Rec.insertAsc p l) (p :: l) := by
  induction l with
  | nil => rfl
  | cons q qs ih =>
    by_cases h : p.2 ≤ q.2
    · simp [Rec.insertAsc, h]
    · simp only [Rec.insertAsc, if_neg h]
      exact (ih.cons q).trans (List.Perm.swap p q qs)

/-- The stable sort permutes its input. -/
theorem sortMetrics_perm (l : List (String × Int)) : List.Perm (Rec.sortMetrics l) l := by
  induction l with
  | nil => rfl
  | cons x xs ih => exact (insertAsc_perm x (Rec.sortMetrics xs)).trans (ih.cons x)

/-- Insertion preserves sortedness by score. -/
theorem insertAsc_sorted (p : String × Int) (l : List (String × Int))
    (h : l.Sorted (fun a b => a.2 ≤ b.2)) :
    (Rec.insertAsc p l).Sorted (fun a b => a.2 ≤ b.2) := by
  induction l with
  | nil => simp [Rec.insertAsc]
  | cons q qs ih =>
    rw [List.sorted_cons] at h
    by_cases hle : p.2 ≤ q.2
    · simp only [Rec.insertAsc, if_pos hle, List.sorted_cons]
      refine ⟨?_, h⟩
      intro b hb
      rcases List.mem_cons.mp hb with rfl | hb
      · exact hle
      · exact hle.trans (h.1 b hb)
    · simp only [Rec.insertAsc, if_neg hle, List.sorted_cons]
      refine ⟨?_, ih h.2⟩
      intro b hb
      rcases List.mem_cons.mp ((insertAsc_perm p qs).mem_iff.mp hb) with rfl | hb2
      · exact (not_le.mp hle).le
      · exact h.1 b hb2

/-- The engine's sort is sorted ascending by score. -/
theorem sortMetrics_sorted (l : List (String × Int)) :
    (Rec.sortMetrics l).Sorted (fun a b => a.2 ≤ b.2) := by
  induction l with
  | nil => simp [Rec.sortMetrics]
  | cons x xs ih => exact insertAsc_sorted x (Rec.sortMetrics xs) ih

/-- Membership in the Set model: an added element is old or the new one. -/
theorem setAdd_mem {s : List String} {x y : String}
    (h : y ∈ Rec.setAdd s x) : y ∈ s ∨ y = x := by
  unfold Rec.setAdd at h
  split at h
  · exact Or.inl h
  · rcases List.mem_append.mp h with h | h
    · exact Or.inl h
    · exact Or.inr (List.mem_singleton.mp h)

/-- Membership after adding a batch of strategies. -/
theorem setAddAll_mem {s : List String} {xs : List String} {y : String}
    (h : y ∈ Rec.setAddAll s xs) : y ∈ s ∨ y ∈ xs := by
  induction xs generalizing s with
  | nil => exact Or.inl h
  | cons x xs ih =>
    rcases ih h with h2 | h2
    · rcases setAdd_mem h2 with h3 | h3
      · exact Or.inl h3
      · exact Or.inr (h3 ▸ List.mem_cons_self x xs)
    · exact Or.inr (List.mem_cons_of_mem x h2)

/-- The Set model never introduces duplicates. -/
theorem setAdd_nodup {s : List String} (x : String) (h : s.Nodup) :
    (Rec.setAdd s x).Nodup := by
  unfold Rec.setAdd
  split
  · exact h
  · rename_i hx
    simp [List.nodup_append, h, hx]

/-- Adding a batch of strategies never introduces duplicates. -/
theorem setAddAll_nodup {s : List String} (xs : List String) (h : s.Nodup) :
    (Rec.setAddAll s xs).Nodup := by
  induction xs generalizing s with
  | nil => exact h
  | cons x xs ih => exact ih (setAdd_nodup x h)

/-- Every parent strategy produced by the accumulation loop is either
already accumulated or comes from the first two entries of a selected
metric's parent bucket at that metric's score level. -/
theorem recFold_mem_parent (lst : List (String × Int))
    (acc : List String × List String) (s : String)
    (h : s ∈ (lst.foldl Rec.recStep acc).1) :
    s ∈ acc.1 ∨ ∃ pr ∈ lst, ∃ ms, Rec.strategyLookup pr.1 = some ms ∧
      s ∈ (Rec.levelStrategies ms.parent (Rec.getScoreLevel pr.2)).take 2 := by
  induction lst generalizing acc with
  | nil => exact Or.inl h
  | cons pr lst ih =>
    rcases ih (Rec.recStep acc pr) h with h2 | h2
    · unfold Rec.recStep at h2
      rcases hl : Rec.strategyLookup pr.1 with _ | ms
      · rw [hl] at h2
        exact Or.inl h2
      · rw [hl] at h2
        rcases setAddAll_mem h2 with h3 | h3
        · exact Or.inl h3
        · exact Or.inr ⟨pr, List.mem_cons_self pr lst, ms, hl, h3⟩
    · obtain ⟨pr2, hpr2, hrest⟩ := h2
      exact Or.inr ⟨pr2, List.mem_cons_of_mem pr hpr2, hrest⟩

/-- Teacher-side analogue of `recFold_mem_parent`. -/
theorem recFold_mem_teacher (lst : List (String × Int))
    (acc : List String × List String) (s : String)
    (h : s ∈ (lst.foldl Rec.recStep acc).2) :
    s ∈ acc.2 ∨ ∃ pr ∈ lst, ∃ ms, Rec.strategyLookup pr.1 = some ms ∧
      s ∈ (Rec.levelStrategies ms.teacher (Rec.getScoreLevel pr.2)).take 2 := by
  induction lst generalizing acc with
  | nil => exact Or.inl h
  | cons pr lst ih =>
    rcases ih (Rec.recStep acc pr) h with h2 | h2
    · unfold Rec.recStep at h2
      rcases hl : Rec.strategyLookup pr.1 with _ | ms
      · rw [hl] at h2
        exact Or.inl h2
      · rw [hl] at h2
        rcases setAddAll_mem h2 with h3 | h3
        · exact Or.inl h3
        · exact Or.inr ⟨pr, List.mem_cons_self pr lst, ms, hl, h3⟩
    · obtain ⟨pr2, hpr2, hrest⟩ := h2
      exact Or.inr ⟨pr2, List.mem_cons_of_mem pr hpr2, hrest⟩

/-- The accumulation loop preserves duplicate-freedom of both audience
accumulators. -/
theorem recFold_nodup (lst : List (String × Int))
    (acc : List String × List String) (h1 : acc.1.Nodup) (h2 : acc.2.Nodup) :
    (lst.foldl Rec.recStep acc).1.Nodup ∧ (lst.foldl Rec.recStep acc).2.Nodup := by
  induction lst generalizing acc with
  | nil => exact ⟨h1, h2⟩
  | cons pr lst ih =>
    refine ih (Rec.recStep acc pr) ?_ ?_ <;>
      · unfold Rec.recStep
        rcases Rec.strategyLookup pr.1 with _ | ms
        · first | exact h1 | exact h2
        · first
          | exact setAddAll_nodup _ h1
          | exact setAddAll_nodup _ h2

/-! ## Claim C7 -/

/-- C7: `generateRecommendations` sorts the metric entries ascending by
score (stably, permuting the input), selects the first three (every
selected score is ≤ every unselected score), and each audience list
draws every entry from the first two strategies of some selected
metric's bucket at that metric's score level. -/
theorem generateRecommendations_selection (metrics : List (String × Int)) :
    (Rec.sortMetrics metrics).Sorted (fun a b => a.2 ≤ b.2) ∧
    List.Perm (Rec.sortMetrics metrics) metrics ∧
    Rec.selectedMetrics metrics = (Rec.sortMetrics metrics).take 3 ∧
    (∀ x ∈ Rec.selectedMetrics metrics,
      ∀ y ∈ (Rec.sortMetrics metrics).drop 3, x.2 ≤ y.2) ∧
    (∀ s ∈ (Rec.generateRecommendations metrics).parent,
      ∃ pr ∈ Rec.selectedMetrics metrics, ∃ ms,
        Rec.strategyLookup pr.1 = some ms ∧
        s ∈ (Rec.levelStrategies ms.parent (Rec.getScoreLevel pr.2)).take 2) ∧
    (∀ s ∈ (Rec.generateRecommendations metrics).teacher,
      ∃ pr ∈ Rec.selectedMetrics metrics, ∃ ms,
        Rec.strategyLookup pr.1 = some ms ∧
        s ∈ (Rec.levelStrategies ms.teacher (Rec.getScoreLevel pr.2)).take 2) := by
  refine ⟨sortMetrics_sorted metrics, sortMetrics_perm metrics, rfl,
    ?_, ?_, ?_⟩
  · intro x hx y hy
    have hs := sortMetrics_sorted metrics
    rw [← List.take_append_drop 3 (Rec.sortMetrics metrics),
      List.Sorted, List.pairwise_append] at hs
    exact hs.2.2 x hx y hy
  · intro s hs
    unfold Rec.generateRecommendations at hs
    split at hs
    · simp at hs
    · exact (recFold_mem_parent _ ([], []) s hs).resolve_left (by simp)
  · intro s hs
    unfold Rec.generateRecommendations at hs
    split at hs
    · simp at hs
    · exact (recFold_mem_teacher _ ([], []) s hs).resolve_left (by simp)

/-- Witness for C7 at the profile (Focus 1, Social 4, Sensory 0,
Motor 5, Routine 3, Emotional 2), applied to the first parent strategy
of the result. -/
theorem generateRecommendations_selection_witness :
    ("Identify specific triggers (sounds, textures, lights) and create predictable sensory environment"
        ∈ (Rec.generateRecommendations (App.profileEntries 1 4 0 5 3 2)).parent) ∧
    (∃ pr ∈ Rec.selectedMetrics (App.profileEntries 1 4 0 5 3 2), ∃ ms,
      Rec.strategyLookup pr.1 = some ms ∧
      "Identify specific triggers (sounds, textures, lights) and create predictable sensory environment"
        ∈ (Rec.levelStrategies ms.parent (Rec.getScoreLevel pr.2)).take 2) :=
  ⟨by decide,
    (generateRecommendations_selection (App.profileEntries 1 4 0 5 3 2)).2.2.2.2.1
      "Identify specific triggers (sounds, textures, lights) and create predictable sensory environment"
      (by decide)⟩

/-! ## Claim C8 -/

/-- The accumulation loop with explicit throw sites never errs. -/
theorem recFoldM_ok (lst : List (String × Int))
    (acc : List String × List String) :
    lst.foldlM Rec.recStepExc acc = Except.ok (lst.foldl Rec.recStep acc) := by
  induction lst generalizing acc with
  | nil => rfl
  | cons pr lst ih =>
    have hstep : Rec.recStepExc acc pr = pure (Rec.recStep acc pr) := by
      unfold Rec.recStepExc Rec.recStep
      rcases Rec.strategyLookup pr.1 with _ | ms <;> rfl
    rw [List.foldlM_cons, hstep]
    exact ih (Rec.recStep acc pr)

/-- C8: the recommendation engine is total — with its one potential
JavaScript throw site (the guarded table dereference) made explicit, it
returns a result for every well-typed profile, all-minimum and
all-maximum profiles included — and the empty profile yields two empty
lists. -/
theorem generateRecommendations_total :
    Rec.generateRecommendations [] = ⟨[], []⟩ ∧
    (∀ metrics, Rec.generateRecommendationsExc metrics =
      Except.ok (Rec.generateRecommendations metrics)) := by
  refine ⟨rfl, fun metrics => ?_⟩
  unfold Rec.generateRecommendationsExc Rec.generateRecommendations
  split
  · rfl
  · rw [recFoldM_ok]
    rfl

/-! ## Claim C9 -/

/-- C9: within each single audience's list returned by
`generateRecommendations`, no two entries are identical (entries are
the strategy texts, so no two entries share identical text), for both
audiences and every profile. -/
theorem generateRecommendations_nodup (metrics : List (String × Int)) :
    (Rec.generateRecommendations metrics).parent.Nodup ∧
    (Rec.generateRecommendations metrics).teacher.Nodup := by
  unfold Rec.generateRecommendations
  split
  · simp
  · exact recFold_nodup _ ([], []) List.nodup_nil List.nodup_nil

/-! ## Claim C2 -/

/-- Accumulating into the text-keyed first-wins map preserves the first
matching entry for any text: the entry surviving for a text is the
first occurrence of that text in `acc ++ xs`. -/
theorem mapInsertAll_find? (xs acc : List Types.Strategy) (t : String) :
    (ProdRec.mapInsertAll acc xs).find? (fun x => x.text == t) =
      (acc ++ xs).find? (fun x => x.text == t) := by
  induction xs generalizing acc with
  | nil => simp [ProdRec.mapInsertAll]
  | cons x xs ih =>
    show (ProdRec.mapInsertAll (ProdRec.mapInsert acc x) xs).find? _ = _
    rw [ih]
    unfold ProdRec.mapInsert
    split
    · rename_i hx
      by_cases hxt : (x.text == t) = true
      · obtain ⟨a, ha, hat⟩ := List.any_eq_true.mp hx
        have hat2 : (a.text == t) = true := by
          rw [beq_iff_eq] at hat hxt ⊢
          rw [hat, hxt]
        have hsome : (acc.find? (fun x => x.text == t)).isSome :=
          List.find?_isSome.mpr ⟨a, ha, hat2⟩
        obtain ⟨u, hu⟩ := Option.isSome_iff_exists.mp hsome
        rw [List.find?_append, List.find?_append, hu]
        rfl
      · rw [List.find?_append, List.find?_append, List.find?_cons_of_neg]
        exact hxt
    · rw [List.append_assoc, List.singleton_append]

/-- Every entry of the first-wins map comes from the accumulator or the
inserted batch. -/
theorem mapInsertAll_mem {acc xs : List Types.Strategy}
    {y : Types.Strategy} (h : y ∈ ProdRec.mapInsertAll acc xs) :
    y ∈ acc ∨ y ∈ xs := by
  induction xs generalizing acc with
  | nil => exact Or.inl h
  | cons x xs ih =>
    rcases ih h with h2 | h2
    · unfold ProdRec.mapInsert at h2
      split at h2
      · exact Or.inl h2
      · rcases List.mem_append.mp h2 with h3 | h3
        · exact Or.inl h3
        · exact Or.inr ((List.mem_singleton.mp h3) ▸ List.mem_cons_self x xs)
    · exact Or.inr (List.mem_cons_of_mem x h2)

/-- The first-wins map keeps at most one entry per text. -/
theorem mapInsertAll_texts_nodup (xs acc : List Types.Strategy)
    (h : (acc.map Types.Strategy.text).Nodup) :
    ((ProdRec.mapInsertAll acc xs).map Types.Strategy.text).Nodup := by
  induction xs generalizing acc with
  | nil => exact h
  | cons x xs ih =>
    refine ih (ProdRec.mapInsert acc x) ?_
    unfold ProdRec.mapInsert
    split
    · exact h
    · rename_i hx
      rw [List.map_append, List.map_singleton]
      refine List.Nodup.append h (List.nodup_singleton _) ?_
      intro a ha hb
      obtain ⟨u, hu, hut⟩ := List.mem_map.mp ha
      rw [List.mem_singleton] at hb
      have hb2 : (u.text == x.text) = true := beq_iff_eq.mpr (hut.trans hb)
      exact hx (List.any_eq_true.mpr ⟨u, hu, hb2⟩)

/-- Every member of the discovery stream comes from the first two
entries of a selected metric's bucket at that metric's score level. -/
theorem prodAudienceStream_mem
    {pick : ProdRec.MetricStrategies → ProdRec.AudienceStrategies}
    {metrics : List (String × Int)} {x : Types.Strategy}
    (h : x ∈ ProdRec.audienceStream pick metrics) :
    ∃ pr ∈ Rec.selectedMetrics metrics, ∃ ms,
      ProdRec.strategyLookup pr.1 = some ms ∧
      x ∈ (ProdRec.levelStrategies (pick ms)
        (ProdRec.getScoreLevel pr.2)).take 2 := by
  unfold ProdRec.audienceStream at h
  obtain ⟨pr, hpr, hx⟩ := List.mem_flatMap.mp h
  rcases hmt : ProdRec.strategyLookup pr.1 with _ | ms
  · rw [hmt] at hx
    cases hx
  · rw [hmt] at hx
    exact ⟨pr, hpr, ms, hmt, hx⟩

/-- The production engine's accumulation loop over any metric list
equals first-wins insertion of the flattened per-audience candidate
streams. -/
theorem prodRecFold_eq_stream (lst : List (String × Int))
    (acc : List Types.Strategy × List Types.Strategy) :
    lst.foldl ProdRec.recStep acc =
      (ProdRec.mapInsertAll acc.1 (lst.flatMap (fun pr =>
        match ProdRec.strategyLookup pr.1 with
        | some ms => (ProdRec.levelStrategies ms.parent
            (ProdRec.getScoreLevel pr.2)).take 2
        | none => [])),
       ProdRec.mapInsertAll acc.2 (lst.flatMap (fun pr =>
        match ProdRec.strategyLookup pr.1 with
        | some ms => (ProdRec.levelStrategies ms.teacher
            (ProdRec.getScoreLevel pr.2)).take 2
        | none => []))) := by
  induction lst generalizing acc with
  | nil => simp [ProdRec.mapInsertAll]
  | cons pr lst ih =>
    rw [List.foldl_cons, ih]
    rcases hl : ProdRec.strategyLookup pr.1 with _ | ms <;>
      simp [ProdRec.recStep, hl, List.flatMap_cons, ProdRec.mapInsertAll,
        List.foldl_append]

/-- C2 (the production engine of `lib/recommendations.ts`, second
embedded document of `src/src/lib/db.ts`): each entry of both audience
lists is a (text, source) pair drawn from the first two entries of a
selected metric's bucket at that metric's score level; within an
audience at most one entry survives per text; and the surviving entry
for any text is the first occurrence of that text in the audience's
discovery stream — in particular, when the same text arises from two
different selected metrics' buckets, the source tag of the first
occurrence is kept. -/
theorem prodRecommendations_dedup_first_wins
    (metrics : List (String × Int)) (t : String) :
    ((ProdRec.generateRecommendations metrics).parent.find?
        (fun x => x.text == t) =
      (ProdRec.audienceStream ProdRec.MetricStrategies.parent
        metrics).find? (fun x => x.text == t)) ∧
    ((ProdRec.generateRecommendations metrics).teacher.find?
        (fun x => x.text == t) =
      (ProdRec.audienceStream ProdRec.MetricStrategies.teacher
        metrics).find? (fun x => x.text == t)) ∧
    (∀ x ∈ (ProdRec.generateRecommendations metrics).parent,
      ∃ pr ∈ Rec.selectedMetrics metrics, ∃ ms,
        ProdRec.strategyLookup pr.1 = some ms ∧
        x ∈ (ProdRec.levelStrategies ms.parent
          (ProdRec.getScoreLevel pr.2)).take 2) ∧
    (∀ x ∈ (ProdRec.generateRecommendations metrics).teacher,
      ∃ pr ∈ Rec.selectedMetrics metrics, ∃ ms,
        ProdRec.strategyLookup pr.1 = some ms ∧
        x ∈ (ProdRec.levelStrategies ms.teacher
          (ProdRec.getScoreLevel pr.2)).take 2) ∧
    ((ProdRec.generateRecommendations metrics).parent.map
        Types.Strategy.text).Nodup ∧
    ((ProdRec.generateRecommendations metrics).teacher.map
        Types.Strategy.text).Nodup := by
  simp only [ProdRec.generateRecommendations]
  split
  · rename_i he
    rw [List.isEmpty_iff.mp he]
    refine ⟨?_, ?_, ?_, ?_, ?_, ?_⟩ <;>
      simp [ProdRec.audienceStream, Rec.selectedMetrics, Rec.sortMetrics]
  · rw [prodRecFold_eq_stream]
    refine ⟨?_, ?_, ?_, ?_, ?_, ?_⟩
    · rw [show (⟨(ProdRec.mapInsertAll [] _, ProdRec.mapInsertAll [] _).1,
          (ProdRec.mapInsertAll [] _, ProdRec.mapInsertAll [] _).2⟩ :
          Types.Recommendations).parent = ProdRec.mapInsertAll [] _ from rfl,
        mapInsertAll_find?]
      rfl
    · rw [show (⟨(ProdRec.mapInsertAll [] _, ProdRec.mapInsertAll [] _).1,
          (ProdRec.mapInsertAll [] _, ProdRec.mapInsertAll [] _).2⟩ :
          Types.Recommendations).teacher = ProdRec.mapInsertAll [] _ from rfl,
        mapInsertAll_find?]
      rfl
    · intro x hx
      rcases mapInsertAll_mem hx with h2 | h2
      · cases h2
      · exact prodAudienceStream_mem h2
    · intro x hx
      rcases mapInsertAll_mem hx with h2 | h2
      · cases h2
      · exact prodAudienceStream_mem h2
    · exact mapInsertAll_texts_nodup _ [] List.nodup_nil
    · exact mapInsertAll_texts_nodup _ [] List.nodup_nil

/-- Witness for C2 at the profile (Focus 1, Social 4, Sensory 0,
Motor 5, Routine 3, Emotional 2): the first parent entry — the
ASAN-attributed sensory-triggers strategy — is in the parent list and
is drawn from the first two entries of a selected metric's bucket. -/
theorem prodRecommendations_dedup_first_wins_witness :
    ((⟨"Identify specific triggers (sounds, textures, lights) and create predictable sensory environment",
        Types.StrategySource.asan⟩ : Types.Strategy) ∈
      (ProdRec.generateRecommendations (App.profileEntries 1 4 0 5 3 2)).parent) ∧
    (∃ pr ∈ Rec.selectedMetrics (App.profileEntries 1 4 0 5 3 2), ∃ ms,
      ProdRec.strategyLookup pr.1 = some ms ∧
      (⟨"Identify specific triggers (sounds, textures, lights) and create predictable sensory environment",
          Types.StrategySource.asan⟩ : Types.Strategy) ∈
        (ProdRec.levelStrategies ms.parent
          (ProdRec.getScoreLevel pr.2)).take 2) :=
  ⟨by decide,
    (prodRecommendations_dedup_first_wins (App.profileEntries 1 4 0 5 3 2)
        "Identify specific triggers (sounds, textures, lights) and create predictable sensory environment").2.2.1
      ⟨"Identify specific triggers (sounds, textures, lights) and create predictable sensory environment",
        Types.StrategySource.asan⟩ (by decide)⟩

/-! ## Claim C10 -/

/-- The CSV deduplication filter keeps a subsequence of its input (order
preserved, each kept entry an entry of the input). -/
theorem dedupGo_sublist (l : List Types.Strategy) (seen : List String) :
    (Sharing.dedupGo seen l).Sublist l := by
  induction l generalizing seen with
  | nil => simp [Sharing.dedupGo]
  | cons s rest ih =>
    unfold Sharing.dedupGo
    split
    · exact (ih seen).cons s
    · exact (ih (s.text :: seen)).cons₂ s

/-- The CSV deduplication filter yields pairwise-distinct texts, none of
them previously seen. -/
theorem dedupGo_texts_nodup (l : List Types.Strategy) (seen : List String) :
    ((Sharing.dedupGo seen l).map Types.Strategy.text).Nodup ∧
    (∀ x ∈ Sharing.dedupGo seen l, x.text ∉ seen) := by
  induction l generalizing seen with
  | nil =>
    refine ⟨List.nodup_nil, ?_⟩
    intro x hx
    cases hx
  | cons s rest ih =>
    unfold Sharing.dedupGo
    split
    · exact ih seen
    · rename_i hc
      constructor
      · rw [List.map_cons, List.nodup_cons]
        refine ⟨?_, (ih (s.text :: seen)).1⟩
        intro hmem
        obtain ⟨u, hu, hut⟩ := List.mem_map.mp hmem
        refine (ih (s.text :: seen)).2 u hu ?_
        rw [hut]
        exact List.mem_cons_self _ _
      · intro x hx
        rcases List.mem_cons.mp hx with rfl | hx2
        · intro hcon
          exact hc (by simp [List.contains, List.elem_iff, hcon])
        · intro hcon
          exact (ih (s.text :: seen)).2 x hx2 (List.mem_cons_of_mem _ hcon)

/-- A text survives the CSV deduplication filter exactly when it occurs
in the input and was not already seen. -/
theorem dedupGo_mem_texts (l : List Types.Strategy) (seen : List String)
    (t : String) :
    t ∈ (Sharing.dedupGo seen l).map Types.Strategy.text ↔
      (t ∈ l.map Types.Strategy.text ∧ t ∉ seen) := by
  induction l generalizing seen with
  | nil => simp [Sharing.dedupGo]
  | cons s rest ih =>
    unfold Sharing.dedupGo
    split
    · rename_i hc
      have hsmem : s.text ∈ seen := by
        simpa [List.contains, List.elem_iff] using hc
      rw [ih seen]
      simp only [List.map_cons, List.mem_cons]
      constructor
      · rintro ⟨h1, h2⟩
        exact ⟨Or.inr h1, h2⟩
      · rintro ⟨h1 | h1, h2⟩
        · exact absurd (h1 ▸ hsmem) h2
        · exact ⟨h1, h2⟩
    · rename_i hc
      have hsmem : s.text ∉ seen := by
        intro hcon
        exact hc (by simp [List.contains, List.elem_iff, hcon])
      simp only [List.map_cons, List.mem_cons]
      constructor
      · rintro (rfl | hmem2)
        · exact ⟨Or.inl rfl, hsmem⟩
        · obtain ⟨h1, h2⟩ := (ih (s.text :: seen)).mp hmem2
          exact ⟨Or.inr h1, fun hcon => h2 (List.mem_cons_of_mem _ hcon)⟩
      · rintro ⟨h1 | h1, h2⟩
        · exact Or.inl h1
        · by_cases hts : t = s.text
          · exact Or.inl hts
          · refine Or.inr ((ih (s.text :: seen)).mpr ⟨h1, ?_⟩)
            intro hcon
            exact (List.mem_cons.mp hcon).elim hts h2

/-- C10: the SUPPORT STRATEGIES section of the CSV export deduplicates
by strategy text across the concatenation parent ++ teacher — a text
appears in the section exactly when some audience list carries it, and
then exactly once — the surviving entries are a subsequence of the
concatenation (first occurrences, in concatenation order), and the rows
are numbered consecutively from 1 in that order. -/
theorem csvStrategies_dedup_numbered (parent teacher : List Types.Strategy) :
    ((Sharing.dedupStrategies (parent ++ teacher)).map
        Types.Strategy.text).Nodup ∧
    (∀ t, t ∈ (Sharing.dedupStrategies (parent ++ teacher)).map
        Types.Strategy.text ↔
      t ∈ (parent ++ teacher).map Types.Strategy.text) ∧
    (Sharing.dedupStrategies (parent ++ teacher)).Sublist (parent ++ teacher) ∧
    (Sharing.csvStrategyRows (some ⟨parent, teacher⟩)).length =
      (Sharing.dedupStrategies (parent ++ teacher)).length ∧
    (∀ i, i < (Sharing.dedupStrategies (parent ++ teacher)).length →
      (Sharing.csvStrategyRows (some ⟨parent, teacher⟩)).get? i =
        some (toString (i + 1) ++ ",\"" ++
          Sharing.escapeCSV
            ((((Sharing.dedupStrategies (parent ++ teacher)).get? i).map
              Types.Strategy.text).getD "") ++ "\"")) := by
  refine ⟨(dedupGo_texts_nodup (parent ++ teacher) []).1,
    fun t => ?_, dedupGo_sublist (parent ++ teacher) [], ?_, fun i hi => ?_⟩
  · rw [Sharing.dedupStrategies, dedupGo_mem_texts]
    simp
  · simp [Sharing.csvStrategyRows, List.enum_length]
  · have hget := List.get?_eq_get (by exact hi)
    unfold Sharing.csvStrategyRows
    rw [List.get?_map, List.get?_enum, hget]
    simp

/-- Witness for C10: with "Shared strategy" present in both audience
lists, the first CSV strategy row is numbered 1 and carries it once. -/
theorem csvStrategies_dedup_numbered_witness :
    (0 < (Sharing.dedupStrategies
      ([(⟨"Shared strategy", Types.StrategySource.asan⟩ : Types.Strategy)] ++
       [⟨"Shared strategy", Types.StrategySource.chadd⟩,
        ⟨"Teacher tip", Types.StrategySource.understood⟩])).length) ∧
    (Sharing.csvStrategyRows (some
        ⟨[⟨"Shared strategy", Types.StrategySource.asan⟩],
         [⟨"Shared strategy", Types.StrategySource.chadd⟩,
          ⟨"Teacher tip", Types.StrategySource.understood⟩]⟩)).get? 0 =
      some (toString (0 + 1) ++ ",\"" ++
        Sharing.escapeCSV
          ((((Sharing.dedupStrategies
            ([(⟨"Shared strategy", Types.StrategySource.asan⟩ : Types.Strategy)] ++
             [⟨"Shared strategy", Types.StrategySource.chadd⟩,
              ⟨"Teacher tip", Types.StrategySource.understood⟩])).get? 0).map
            Types.Strategy.text).getD "") ++ "\"") :=
  ⟨by decide,
    (csvStrategies_dedup_numbered
        [⟨"Shared strategy", Types.StrategySource.asan⟩]
        [⟨"Shared strategy", Types.StrategySource.chadd⟩,
         ⟨"Teacher tip", Types.StrategySource.understood⟩]).2.2.2.2 0
      (by decide)⟩

end MySpectrum
